import Mathlib

/-!
Shallow embedding of include/eos/fitting/nonlinear_camera_estimation.hpp
(eos, a 3D morphable model fitting library).

The file defines two result records (Frustum, OrthographicRenderingParameters)
and one routine, estimate_orthographic_camera, which

  * asserts image_points.size() == model_points.size() and
    image_points.size() >= 6;
  * forms aspect = width / height;
  * builds the 6-entry parameter vector [pitch, yaw, roll, t_x, t_y,
    frustum_scale] initialised with setConstant(6, 0.0) followed by
    parameters[5] = 110.0;
  * wraps the cost functor detail::OrthographicParameterProjection in
    Eigen::NumericalDiff with the explicit step epsfcn = 0.0001;
  * runs Eigen::LevenbergMarquardt, discarding the returned status code;
  * packages the solved vector and the frustum
    { -1*aspect*p5, 1*aspect*p5, -1*p5, 1*p5 } into the result record.

Modelling conventions:
  * scalars are rationals (exact arithmetic; the float/double narrowing of
    the C++ is not modelled);
  * a failed assert is modelled as Option.none — the routine returns
    Option OrthographicRenderingParameters, none exactly when an assert
    fires;
  * the Levenberg-Marquardt engine is an external Eigen dependency, so the
    routine is parameterized over any solver function that receives the
    numerical-diff wrapper and the initial parameter vector and produces
    the final parameter vector together with an integer status code
    (Eigen's lm.minimize mutates the vector in place and returns a status;
    here that is a pair).
-/

namespace Eos
namespace Fitting

/-- A 2D image point (cv::Vec2f in the source). -/
structure Vec2 where
  x : ℚ
  y : ℚ
deriving DecidableEq

/-- A homogeneous 3D model point (cv::Vec4f in the source). -/
structure Vec4 where
  x : ℚ
  y : ℚ
  z : ℚ
  w : ℚ
deriving DecidableEq

/-- A camera viewing frustum, at the moment used as orthographic camera
only: the four viewing-plane bounds left, right, bottom, top. -/
structure Frustum where
  l : ℚ
  r : ℚ
  b : ℚ
  t : ℚ
deriving DecidableEq

/-- The estimated model parameters (rotation, translation) and camera
parameters (viewing frustum): fields r_x (pitch), r_y (yaw), r_z (roll),
t_x, t_y and the frustum, in the declaration order of the C++ aggregate. -/
structure OrthographicRenderingParameters where
  r_x : ℚ
  r_y : ℚ
  r_z : ℚ
  t_x : ℚ
  t_y : ℚ
  frustum : Frustum
deriving DecidableEq

/-- The 6-entry parameter vector [rot_x_pitch, rot_y_yaw, rot_z_roll, t_x,
t_y, frustum_scale] (an Eigen::VectorXd of size num_params = 6). -/
abbrev ParameterVector := Fin 6 → ℚ

/-- Eigen's VectorXd::setConstant(n, x): every entry set to x. -/
def setConstant (x : ℚ) : ParameterVector := fun _ => x

/-- Lines 113-114 of the source: parameters.setConstant(num_params, 0.0)
followed by parameters[5] = 110.0. -/
def initial_parameters : ParameterVector :=
  Function.update (setConstant 0) (5 : Fin 6) 110

/-- The data captured by the cost functor
detail::OrthographicParameterProjection at construction: the
correspondence lists and the image dimensions. -/
structure OrthographicParameterProjection where
  image_points : List Vec2
  model_points : List Vec4
  width : ℤ
  height : ℤ
deriving DecidableEq

/-- The Eigen::NumericalDiff wrapper around the cost functor: the wrapped
functor together with the finite-difference step epsfcn handed to the
wrapper's constructor. -/
structure NumericalDiff where
  f : OrthographicParameterProjection
  epsfcn : ℚ
deriving DecidableEq

/-- Line 118 of the source: the cost functor wrapped in
Eigen::NumericalDiff with the explicit differentiation step 0.0001
(the default was too small to produce a usable gradient). -/
def cost_function_with_derivative
    (cost_function : OrthographicParameterProjection) : NumericalDiff :=
  ⟨cost_function, 1 / 10000⟩

/-- The external Levenberg-Marquardt engine: any function from the
numerical-diff-wrapped cost functor and an initial parameter vector to the
final parameter vector paired with the integer status code that
lm.minimize returns. -/
abbrev LMSolver := NumericalDiff → ParameterVector → ParameterVector × ℤ

/-- Line 125 of the source: the frustum derived from the aspect ratio and
the solved frustum_scale,
{ -1*aspect*scale, 1*aspect*scale, -1*scale, 1*scale }. -/
def camera_frustum (aspect frustum_scale : ℚ) : Frustum :=
  ⟨-1 * aspect * frustum_scale, 1 * aspect * frustum_scale,
   -1 * frustum_scale, 1 * frustum_scale⟩

/-- estimate_orthographic_camera (lines 102-127 of the source),
parameterized over the external Levenberg-Marquardt engine. The two
asserts are modelled as Option.none; otherwise the routine builds the
initial vector, hands the numerical-diff-wrapped cost functor and the
initial vector to the solver, ignores the solver's status code, and
packages the solved parameter vector and the derived frustum. The C++
names its (elsewhere-declared) result aggregate RenderingParameters; it is
modelled here by the OrthographicRenderingParameters record declared in
this fragment, whose field list the positional initializer follows. -/
def estimate_orthographic_camera (lm : LMSolver)
    (image_points : List Vec2) (model_points : List Vec4)
    (width height : ℤ) : Option OrthographicRenderingParameters :=
  if image_points.length = model_points.length then
    if 6 ≤ image_points.length then
      let aspect : ℚ := (width : ℚ) / (height : ℚ)
      let cost_function : OrthographicParameterProjection :=
        ⟨image_points, model_points, width, height⟩
      let solved := lm (cost_function_with_derivative cost_function) initial_parameters
      let parameters : ParameterVector := solved.1
      some ⟨parameters 0, parameters 1, parameters 2, parameters 3, parameters 4,
            camera_frustum aspect (parameters 5)⟩
    else none
  else none

/-- Modelled from the spec: the Residual Model lives in
include/eos/fitting/detail/nonlinear_camera_estimation_detail.hpp, which
is not part of this fragment. Per the spec it builds the rotation from the
three angles with the composition order roll after pitch after yaw. The
trigonometric functions are external, so each axis rotation matrix is
parameterized by the cosine-sine pair of its (radian) angle. Rotation
about the x-axis (pitch). -/
def rotationX (c s : ℚ) : Matrix (Fin 3) (Fin 3) ℚ :=
  !![1, 0, 0; 0, c, -s; 0, s, c]

/-- Modelled from the spec: rotation about the y-axis (yaw); see
rotationX. -/
def rotationY (c s : ℚ) : Matrix (Fin 3) (Fin 3) ℚ :=
  !![c, 0, s; 0, 1, 0; -s, 0, c]

/-- Modelled from the spec: rotation about the z-axis (roll); see
rotationX. -/
def rotationZ (c s : ℚ) : Matrix (Fin 3) (Fin 3) ℚ :=
  !![c, -s, 0; s, c, 0; 0, 0, 1]

/-- Modelled from the spec: the Residual Model rotates a model-space
vertex by the matrix product R * P * Y * vertex, where P = rotationX of
the pitch angle, Y = rotationY of the yaw angle and R = rotationZ of the
roll angle; cp, sp are the cosine and sine of pitch, cy, sy of yaw and
cr, sr of roll. -/
def rotate_model_point (cp sp cy sy cr sr : ℚ) (vertex : Fin 3 → ℚ) :
    Fin 3 → ℚ :=
  (rotationZ cr sr * rotationX cp sp * rotationY cy sy).mulVec vertex

/-- Unfolding of a successful call: with matching lengths and at least 6
correspondences, the result is built from the solver's output vector at
the numerical-diff wrapper and the initial parameter vector. -/
theorem estimate_eq_of_valid (lm : LMSolver) (ips : List Vec2)
    (mps : List Vec4) (w h : ℤ) (hlen : ips.length = mps.length)
    (hsix : 6 ≤ ips.length) :
    estimate_orthographic_camera lm ips mps w h =
      some ⟨(lm (cost_function_with_derivative ⟨ips, mps, w, h⟩) initial_parameters).1 0,
            (lm (cost_function_with_derivative ⟨ips, mps, w, h⟩) initial_parameters).1 1,
            (lm (cost_function_with_derivative ⟨ips, mps, w, h⟩) initial_parameters).1 2,
            (lm (cost_function_with_derivative ⟨ips, mps, w, h⟩) initial_parameters).1 3,
            (lm (cost_function_with_derivative ⟨ips, mps, w, h⟩) initial_parameters).1 4,
            camera_frustum ((w : ℚ) / (h : ℚ))
              ((lm (cost_function_with_derivative ⟨ips, mps, w, h⟩) initial_parameters).1 5)⟩ := by
  simp [estimate_orthographic_camera, hlen, hsix]
  omega

/-- C1: a call to estimate_orthographic_camera produces a result (the
asserts pass and the solve proceeds) exactly when image_points and
model_points have the same length and that length is at least 6; with
mismatched lengths or fewer than 6 correspondences the call fails the
assertion-style precondition (modelled as none) and no result is
returned. -/
theorem estimate_isSome_iff_preconditions (lm : LMSolver)
    (image_points : List Vec2) (model_points : List Vec4) (width height : ℤ) :
    (estimate_orthographic_camera lm image_points model_points width height).isSome ↔
      (image_points.length = model_points.length ∧ 6 ≤ image_points.length) := by
  by_cases hlen : image_points.length = model_points.length <;>
    by_cases hsix : 6 ≤ image_points.length <;>
      simp [estimate_orthographic_camera, hlen, hsix]

/-- C2: with positive width and height and valid correspondence lists, the
frustum of the returned result is {left = -aspect*scale, right =
aspect*scale, bottom = -scale, top = scale}, where aspect = width/height
as a ratio of the integer dimensions and scale is the final value of the
sixth parameter produced by the solve. -/
theorem estimate_frustum_from_aspect_and_scale (lm : LMSolver)
    (image_points : List Vec2) (model_points : List Vec4) (width height : ℤ)
    (scale : ℚ) (hw : 0 < width) (hh : 0 < height)
    (hlen : image_points.length = model_points.length)
    (hsix : 6 ≤ image_points.length)
    (hscale : (lm (cost_function_with_derivative
        ⟨image_points, model_points, width, height⟩) initial_parameters).1 5 = scale) :
    ∃ res, estimate_orthographic_camera lm image_points model_points width height
        = some res ∧
      res.frustum =
        ⟨-((width : ℚ) / (height : ℚ) * scale), (width : ℚ) / (height : ℚ) * scale,
         -scale, scale⟩ := by
  refine ⟨_, estimate_eq_of_valid lm image_points model_points width height hlen hsix, ?_⟩
  simp [camera_frustum, hscale]

/-- C3: the solver's status code is never inspected and no error or
non-convergence condition is signaled through the return value: two
solvers whose final parameter vectors agree yield identical results, and
with valid inputs the call always produces a result. -/
theorem estimate_ignores_solver_status (lm1 lm2 : LMSolver)
    (image_points : List Vec2) (model_points : List Vec4) (width height : ℤ)
    (hfst : ∀ cf p, (lm1 cf p).1 = (lm2 cf p).1)
    (hlen : image_points.length = model_points.length)
    (hsix : 6 ≤ image_points.length) :
    estimate_orthographic_camera lm1 image_points model_points width height
        = estimate_orthographic_camera lm2 image_points model_points width height ∧
      (estimate_orthographic_camera lm1 image_points model_points width height).isSome := by
  constructor
  · rw [estimate_eq_of_valid lm1 image_points model_points width height hlen hsix,
        estimate_eq_of_valid lm2 image_points model_points width height hlen hsix]
    simp [hfst]
  · rw [estimate_eq_of_valid lm1 image_points model_points width height hlen hsix]
    rfl

/-- C4: the initial parameter vector handed to the solver has exactly 6
entries (its index type is Fin 6), with pitch, yaw, roll, t_x and t_y all
0 and frustum_scale 110; it is the fixed constant initial_parameters,
independent of the inputs: two solvers that agree at initial_parameters
(however much they differ elsewhere) yield identical results. -/
theorem estimate_initial_guess_fixed (lm1 lm2 : LMSolver)
    (image_points : List Vec2) (model_points : List Vec4) (width height : ℤ)
    (hinit : ∀ cf, lm1 cf initial_parameters = lm2 cf initial_parameters) :
    estimate_orthographic_camera lm1 image_points model_points width height
        = estimate_orthographic_camera lm2 image_points model_points width height ∧
      initial_parameters 0 = 0 ∧ initial_parameters 1 = 0 ∧
      initial_parameters 2 = 0 ∧ initial_parameters 3 = 0 ∧
      initial_parameters 4 = 0 ∧ initial_parameters 5 = 110 := by
  refine ⟨?_, by decide, by decide, by decide, by decide, by decide, by decide⟩
  simp [estimate_orthographic_camera, hinit]

/-- Witness for C2: a solver that returns its input vector unchanged, six
coincident correspondences, width 2, height 1; the frustum is
{-220, 220, -110, 110}. -/
theorem estimate_frustum_from_aspect_and_scale_witness :
    ∃ res, estimate_orthographic_camera (fun _ p => (p, 0))
        (List.replicate 6 ⟨0, 0⟩) (List.replicate 6 ⟨0, 0, 0, 1⟩) 2 1 = some res ∧
      res.frustum =
        ⟨-(((2 : ℤ) : ℚ) / ((1 : ℤ) : ℚ) * 110), ((2 : ℤ) : ℚ) / ((1 : ℤ) : ℚ) * 110,
         -110, 110⟩ :=
  estimate_frustum_from_aspect_and_scale (fun _ p => (p, 0))
    (List.replicate 6 ⟨0, 0⟩) (List.replicate 6 ⟨0, 0, 0, 1⟩) 2 1 110
    (by decide) (by decide) (by decide) (by decide) (by decide)

/-- Witness for C3: two solvers returning the same vector but the status
codes 0 and 1 produce identical results, and the call succeeds. -/
theorem estimate_ignores_solver_status_witness :
    estimate_orthographic_camera (fun _ p => (p, 0))
        (List.replicate 6 ⟨0, 0⟩) (List.replicate 6 ⟨0, 0, 0, 1⟩) 2 1
      = estimate_orthographic_camera (fun _ p => (p, 1))
        (List.replicate 6 ⟨0, 0⟩) (List.replicate 6 ⟨0, 0, 0, 1⟩) 2 1 ∧
    (estimate_orthographic_camera (fun _ p => (p, 0))
        (List.replicate 6 ⟨0, 0⟩) (List.replicate 6 ⟨0, 0, 0, 1⟩) 2 1).isSome :=
  estimate_ignores_solver_status (fun _ p => (p, 0)) (fun _ p => (p, 1))
    (List.replicate 6 ⟨0, 0⟩) (List.replicate 6 ⟨0, 0, 0, 1⟩) 2 1
    (fun _ _ => rfl) (by decide) (by decide)

/-- Witness for C4: the identity-like solver and a solver that is constant
everywhere agree at initial_parameters, so the estimates coincide, and the
initial vector is [0, 0, 0, 0, 0, 110]. -/
theorem estimate_initial_guess_fixed_witness :
    estimate_orthographic_camera (fun _ p => (p, 0))
        (List.replicate 6 ⟨0, 0⟩) (List.replicate 6 ⟨0, 0, 0, 1⟩) 2 1
      = estimate_orthographic_camera (fun _ _ => (initial_parameters, 0))
        (List.replicate 6 ⟨0, 0⟩) (List.replicate 6 ⟨0, 0, 0, 1⟩) 2 1 ∧
    initial_parameters 0 = 0 ∧ initial_parameters 1 = 0 ∧
    initial_parameters 2 = 0 ∧ initial_parameters 3 = 0 ∧
    initial_parameters 4 = 0 ∧ initial_parameters 5 = 110 :=
  estimate_initial_guess_fixed (fun _ p => (p, 0)) (fun _ _ => (initial_parameters, 0))
    (List.replicate 6 ⟨0, 0⟩) (List.replicate 6 ⟨0, 0, 0, 1⟩) 2 1 (fun _ => rfl)

/-- C5: the forward model rotates a model-space vertex by the matrix
product R * P * Y (roll times pitch times yaw) of the three axis-rotation
matrices, which is exactly the sequential composition with yaw applied to
the vertex first, then pitch, then roll. -/
theorem rotation_composition_order (cp sp cy sy cr sr : ℚ) (vertex : Fin 3 → ℚ) :
    rotate_model_point cp sp cy sy cr sr vertex =
      (rotationZ cr sr).mulVec
        ((rotationX cp sp).mulVec ((rotationY cy sy).mulVec vertex)) := by
  rw [rotate_model_point]
  simp [Matrix.mulVec_mulVec, Matrix.mul_assoc]

/-- C6: the returned record reads the solved parameter vector back in the
fixed order [pitch, yaw, roll, t_x, t_y, frustum_scale]: r_x is parameter
0, r_y parameter 1, r_z parameter 2, t_x parameter 3, t_y parameter 4,
and the frustum is derived from parameter 5. -/
theorem estimate_reads_parameters_in_order (lm : LMSolver)
    (image_points : List Vec2) (model_points : List Vec4) (width height : ℤ)
    (p : ParameterVector)
    (hlen : image_points.length = model_points.length)
    (hsix : 6 ≤ image_points.length)
    (hp : (lm (cost_function_with_derivative
        ⟨image_points, model_points, width, height⟩) initial_parameters).1 = p) :
    estimate_orthographic_camera lm image_points model_points width height =
      some ⟨p 0, p 1, p 2, p 3, p 4,
            camera_frustum ((width : ℚ) / (height : ℚ)) (p 5)⟩ := by
  rw [estimate_eq_of_valid lm image_points model_points width height hlen hsix, hp]

/-- Witness for C6: a solver returning its input unchanged gives back the
initial parameter vector, read in declaration order. -/
theorem estimate_reads_parameters_in_order_witness :
    estimate_orthographic_camera (fun _ p => (p, 0))
        (List.replicate 6 ⟨0, 0⟩) (List.replicate 6 ⟨0, 0, 0, 1⟩) 2 1 =
      some ⟨initial_parameters 0, initial_parameters 1, initial_parameters 2,
            initial_parameters 3, initial_parameters 4,
            camera_frustum (((2 : ℤ) : ℚ) / ((1 : ℤ) : ℚ)) (initial_parameters 5)⟩ :=
  estimate_reads_parameters_in_order (fun _ p => (p, 0))
    (List.replicate 6 ⟨0, 0⟩) (List.replicate 6 ⟨0, 0, 0, 1⟩) 2 1
    initial_parameters (by decide) (by decide) rfl

/-- C7: the derived frustum depends on the image dimensions only through
the aspect ratio: for a fixed frustum_scale, two pairs of dimensions with
equal ratio width/height give identical frustum bounds, both for the
derivation map itself and for the results of two calls whose solves
produce the same frustum_scale. -/
theorem frustum_depends_only_on_aspect (lm : LMSolver)
    (image_points : List Vec2) (model_points : List Vec4)
    (w1 h1 w2 h2 : ℤ) (frustum_scale : ℚ)
    (hlen : image_points.length = model_points.length)
    (hsix : 6 ≤ image_points.length)
    (haspect : (w1 : ℚ) / (h1 : ℚ) = (w2 : ℚ) / (h2 : ℚ))
    (hscale : (lm (cost_function_with_derivative
          ⟨image_points, model_points, w1, h1⟩) initial_parameters).1 5
        = (lm (cost_function_with_derivative
          ⟨image_points, model_points, w2, h2⟩) initial_parameters).1 5) :
    camera_frustum ((w1 : ℚ) / (h1 : ℚ)) frustum_scale
        = camera_frustum ((w2 : ℚ) / (h2 : ℚ)) frustum_scale ∧
      ∃ res1 res2,
        estimate_orthographic_camera lm image_points model_points w1 h1 = some res1 ∧
        estimate_orthographic_camera lm image_points model_points w2 h2 = some res2 ∧
        res1.frustum = res2.frustum := by
  refine ⟨by rw [haspect], _, _,
    estimate_eq_of_valid lm image_points model_points w1 h1 hlen hsix,
    estimate_eq_of_valid lm image_points model_points w2 h2 hlen hsix, ?_⟩
  rw [haspect, hscale]

/-- Witness for C7: dimensions 2 times 1 and 4 times 2 share the aspect
ratio 2, so the frustum bounds agree. -/
theorem frustum_depends_only_on_aspect_witness :
    camera_frustum (((2 : ℤ) : ℚ) / ((1 : ℤ) : ℚ)) 7
        = camera_frustum (((4 : ℤ) : ℚ) / ((2 : ℤ) : ℚ)) 7 ∧
      ∃ res1 res2,
        estimate_orthographic_camera (fun _ p => (p, 0))
            (List.replicate 6 ⟨0, 0⟩) (List.replicate 6 ⟨0, 0, 0, 1⟩) 2 1 = some res1 ∧
        estimate_orthographic_camera (fun _ p => (p, 0))
            (List.replicate 6 ⟨0, 0⟩) (List.replicate 6 ⟨0, 0, 0, 1⟩) 4 2 = some res2 ∧
        res1.frustum = res2.frustum :=
  frustum_depends_only_on_aspect (fun _ p => (p, 0))
    (List.replicate 6 ⟨0, 0⟩) (List.replicate 6 ⟨0, 0, 0, 1⟩) 2 1 4 2 7
    (by decide) (by decide) (by norm_num) rfl

/-- C8: the object handed to the Levenberg-Marquardt engine is the
numerical-diff wrapper of the residual cost functor with the fixed
hand-tuned step epsfcn = 0.0001; the estimate consults the solver only at
that wrapper. -/
theorem jacobian_numerical_diff_step
    (cost_function : OrthographicParameterProjection) (lm1 lm2 : LMSolver)
    (image_points : List Vec2) (model_points : List Vec4) (width height : ℤ)
    (hagree : ∀ p, lm1 (cost_function_with_derivative
          ⟨image_points, model_points, width, height⟩) p
        = lm2 (cost_function_with_derivative
          ⟨image_points, model_points, width, height⟩) p) :
    (cost_function_with_derivative cost_function).epsfcn = 1 / 10000 ∧
    (cost_function_with_derivative cost_function).f = cost_function ∧
    estimate_orthographic_camera lm1 image_points model_points width height
      = estimate_orthographic_camera lm2 image_points model_points width height := by
  refine ⟨rfl, rfl, ?_⟩
  simp only [estimate_orthographic_camera, hagree]

/-- Witness for C8: a solver that reports status 1 and one that reports
the wrapped functor's width as status agree on the wrapper built from
width 1, so the estimates coincide; the wrapper's step is 1/10000. -/
theorem jacobian_numerical_diff_step_witness :
    (cost_function_with_derivative ⟨[], [], 1, 1⟩).epsfcn = 1 / 10000 ∧
    (cost_function_with_derivative ⟨[], [], 1, 1⟩).f = ⟨[], [], 1, 1⟩ ∧
    estimate_orthographic_camera (fun _ p => (p, 1))
        (List.replicate 6 ⟨0, 0⟩) (List.replicate 6 ⟨0, 0, 0, 1⟩) 1 1
      = estimate_orthographic_camera (fun nd p => (p, nd.f.width))
        (List.replicate 6 ⟨0, 0⟩) (List.replicate 6 ⟨0, 0, 0, 1⟩) 1 1 :=
  jacobian_numerical_diff_step ⟨[], [], 1, 1⟩
    (fun _ p => (p, 1)) (fun nd p => (p, nd.f.width))
    (List.replicate 6 ⟨0, 0⟩) (List.replicate 6 ⟨0, 0, 0, 1⟩) 1 1 (fun _ => rfl)

/-- C9: every returned frustum satisfies left = -right, bottom = -top and
right = aspect * top; when the solved frustum_scale is negative, the
bounds invert (left exceeds right and bottom exceeds top) and nothing
prevents this. -/
theorem frustum_symmetry_invariants (lm : LMSolver)
    (image_points : List Vec2) (model_points : List Vec4) (width height : ℤ)
    (scale : ℚ) (hw : 0 < width) (hh : 0 < height)
    (hlen : image_points.length = model_points.length)
    (hsix : 6 ≤ image_points.length)
    (hscale : (lm (cost_function_with_derivative
        ⟨image_points, model_points, width, height⟩) initial_parameters).1 5 = scale) :
    ∃ res, estimate_orthographic_camera lm image_points model_points width height
        = some res ∧
      res.frustum.l = -res.frustum.r ∧
      res.frustum.b = -res.frustum.t ∧
      res.frustum.r = (width : ℚ) / (height : ℚ) * res.frustum.t ∧
      (scale < 0 → res.frustum.r < res.frustum.l ∧ res.frustum.t < res.frustum.b) := by
  refine ⟨_, estimate_eq_of_valid lm image_points model_points width height hlen hsix, ?_⟩
  have haspect : 0 < (width : ℚ) / (height : ℚ) := by
    apply div_pos <;> exact_mod_cast ‹_›
  simp only [camera_frustum, hscale]
  refine ⟨by ring, by ring, by ring, fun hneg => ⟨by nlinarith, by nlinarith⟩⟩

/-- Witness for C9: a solver returning the constant vector -1 yields a
negative frustum_scale, and indeed the returned bounds invert. -/
theorem frustum_symmetry_invariants_witness :
    ∃ res, estimate_orthographic_camera (fun _ _ => (fun _ => (-1 : ℚ), 0))
        (List.replicate 6 ⟨0, 0⟩) (List.replicate 6 ⟨0, 0, 0, 1⟩) 2 1 = some res ∧
      res.frustum.l = -res.frustum.r ∧
      res.frustum.b = -res.frustum.t ∧
      res.frustum.r = ((2 : ℤ) : ℚ) / ((1 : ℤ) : ℚ) * res.frustum.t ∧
      ((-1 : ℚ) < 0 → res.frustum.r < res.frustum.l ∧ res.frustum.t < res.frustum.b) :=
  frustum_symmetry_invariants (fun _ _ => (fun _ => (-1 : ℚ), 0))
    (List.replicate 6 ⟨0, 0⟩) (List.replicate 6 ⟨0, 0, 0, 1⟩) 2 1 (-1)
    (by decide) (by decide) (by decide) (by decide) rfl

end Fitting
end Eos
